import Mathlib

/-!
Shallow embedding of `src/server.ts` (tabungdika personal finance tracker).
The server keeps three SQLite tables (users, targets, transactions) and
exposes Express handlers for registration, login, transactions, savings
targets and dashboard stats.  Each handler below is embedded as a pure
function over an explicit `Store` value; SQLite `REAL` amounts are modelled
as `Int`, `DATE` columns as a year/month/day triple compared the way the
zero-padded ISO strings compare in SQL, and `AUTOINCREMENT` columns as
explicit counters in the store.
-/

namespace TabungDika

/-- Calendar date as stored in the `date` column (zero-padded ISO string in
the database). -/
structure CalDate where
  year : Nat
  month : Nat
  day : Nat
deriving DecidableEq, Repr

/-- SQLite string comparison of two zero-padded ISO dates `a <= b`
(lexicographic on year, month, day). -/
def CalDate.le (a b : CalDate) : Bool :=
  Nat.blt a.year b.year ||
    (a.year == b.year && Nat.blt a.month b.month) ||
    (a.year == b.year && a.month == b.month && Nat.ble a.day b.day)

/-- The `type` column, constrained by `CHECK(type IN ('income','expense'))`. -/
inductive TxType where
  | income
  | expense
deriving DecidableEq, BEq, Repr

/-- Row of the `users` table (`id`, `name`, `email UNIQUE`, `password`,
`created_at`; `avatar_url` is never written by the server and omitted). -/
structure User where
  id : Nat
  name : String
  email : String
  password : String
  created_at : Nat
deriving DecidableEq, Repr

/-- Row of the `targets` table. -/
structure Target where
  id : Nat
  user_id : Nat
  name : String
  amount : Int
  saved_amount : Int
  deadline : Option CalDate
  description : Option String
  status : String
  created_at : Nat
deriving DecidableEq, Repr

/-- Row of the `transactions` table. -/
structure Transaction where
  id : Nat
  user_id : Nat
  type : TxType
  category : String
  amount : Int
  description : Option String
  date : CalDate
  target_id : Option Nat
  created_at : Nat
deriving DecidableEq, Repr

/-- The whole database: the three tables plus the `AUTOINCREMENT` counters. -/
structure Store where
  users : List User
  targets : List Target
  transactions : List Transaction
  nextUserId : Nat
  nextTargetId : Nat
  nextTxId : Nat
deriving DecidableEq, Repr

/-- Freshly initialised database: empty tables, rowids start at 1. -/
def Store.empty : Store := ⟨[], [], [], 1, 1, 1⟩

/-- Errors a handler can surface: the caught UNIQUE violation on register
(HTTP 400 "Email already exists") and an uncaught SQLite constraint /
binding failure (NOT NULL column bound to a missing field, or the CHECK
on `type`), which aborts the statement before any row is written. -/
inductive ApiError where
  | duplicateEmail
  | constraintViolation
deriving DecidableEq, Repr

/-- POST /api/auth/register: `INSERT INTO users (name, email, password)`;
the UNIQUE constraint on `email` makes the insert throw, caught and mapped
to a 400 error, leaving the table untouched. -/
def register (s : Store) (name email password : String) :
    Store × Except ApiError Nat :=
  if s.users.any (fun u => u.email == email) then
    (s, .error .duplicateEmail)
  else
    ({ s with
        users := s.users ++ [⟨s.nextUserId, name, email, password, s.nextUserId⟩],
        nextUserId := s.nextUserId + 1 },
      .ok s.nextUserId)

/-- The request body of POST /api/transactions: every field the handler
destructures may be absent from the JSON body. -/
structure TxRequest where
  userId : Option Nat
  type : Option String
  category : Option String
  amount : Option Int
  description : Option String
  date : Option CalDate
  targetId : Option Nat
deriving DecidableEq, Repr

/-- The CHECK constraint on the `type` column. -/
def parseTxType : String → Option TxType
  | "income" => some .income
  | "expense" => some .expense
  | _ => none

/-- JavaScript truthiness of the `targetId` body field as used in
`if (type === 'income' && targetId)`: absent (undefined/null/empty string)
and the number 0 are falsy. -/
def truthyId : Option Nat → Bool
  | none => false
  | some n => !(n == 0)

/-- POST /api/transactions: insert the row, then, when
`type === 'income' && targetId`, run
`UPDATE targets SET saved_amount = saved_amount + ? WHERE id = ?`
(no ownership check: any row whose id matches is bumped).  A missing
required column or a `type` outside the CHECK set makes the INSERT throw
before anything is written. -/
def create_transaction (s : Store) (r : TxRequest) :
    Store × Except ApiError Nat :=
  match r.userId, r.type, r.category, r.amount, r.date with
  | some uid, some tyStr, some cat, some amt, some d =>
    match parseTxType tyStr with
    | some ty =>
      let tx : Transaction :=
        ⟨s.nextTxId, uid, ty, cat, amt, r.description, d, r.targetId, s.nextTxId⟩
      let s1 := { s with
        transactions := s.transactions ++ [tx],
        nextTxId := s.nextTxId + 1 }
      let s2 :=
        if ty = TxType.income ∧ truthyId r.targetId = true then
          { s1 with targets := s1.targets.map (fun t =>
              if some t.id = r.targetId then
                { t with saved_amount := t.saved_amount + amt }
              else t) }
        else s1
      (s2, .ok tx.id)
    | none => (s, .error .constraintViolation)
  | _, _, _, _, _ => (s, .error .constraintViolation)

/-- DELETE /api/transactions/:id: `DELETE FROM transactions WHERE id = ?`
followed unconditionally by `res.json({ success: true })`.  Nothing else is
touched: in particular no target's `saved_amount` is adjusted and a
missing id is not reported. -/
def delete_transaction (s : Store) (id : Nat) : Store × Bool :=
  ({ s with transactions := s.transactions.filter (fun tx => !(tx.id == id)) },
    true)

/-- Insertion step of the embedded ORDER BY (SQLite sorting is modelled by
a deterministic insertion sort; only determinism matters to the claims). -/
def insertBy (le : α → α → Bool) (a : α) : List α → List α
  | [] => [a]
  | b :: l => if le a b then a :: b :: l else b :: insertBy le a l

/-- Deterministic sort used to model ORDER BY. -/
def sortBy (le : α → α → Bool) : List α → List α
  | [] => []
  | a :: l => insertBy le a (sortBy le l)

/-- GET /api/transactions:
`SELECT * FROM transactions WHERE user_id = ? ORDER BY date DESC`. -/
def list_transactions (s : Store) (uid : Nat) : List Transaction :=
  sortBy (fun a b => CalDate.le b.date a.date)
    (s.transactions.filter (fun t => t.user_id == uid))

/-- GET /api/targets:
`SELECT * FROM targets WHERE user_id = ? ORDER BY created_at DESC`. -/
def list_targets (s : Store) (uid : Nat) : List Target :=
  sortBy (fun a b => Nat.ble b.created_at a.created_at)
    (s.targets.filter (fun t => t.user_id == uid))

/-- POST /api/targets: `INSERT INTO targets (user_id, name, amount,
deadline, description)`; `saved_amount` defaults to 0 and `status` to
'active'. -/
def create_target (s : Store) (uid : Nat) (name : String) (amount : Int)
    (deadline : Option CalDate) (description : Option String) : Store × Nat :=
  ({ s with
      targets := s.targets ++
        [⟨s.nextTargetId, uid, name, amount, 0, deadline, description,
          "active", s.nextTargetId⟩],
      nextTargetId := s.nextTargetId + 1 },
    s.nextTargetId)

/-- PATCH /api/targets/:id: when `saved_amount` is supplied run
`UPDATE targets SET saved_amount = ? WHERE id = ?`, then when `status` is
supplied run `UPDATE targets SET status = ? WHERE id = ?`; always respond
success. -/
def update_target (s : Store) (id : Nat) (newSaved : Option Int)
    (newStatus : Option String) : Store :=
  let s1 := match newSaved with
    | some v => { s with targets := s.targets.map (fun t =>
        if t.id = id then { t with saved_amount := v } else t) }
    | none => s
  match newStatus with
  | some v => { s1 with targets := s1.targets.map (fun t =>
      if t.id = id then { t with status := v } else t) }
  | none => s1

/-- Response shape of GET /api/stats. -/
structure Stats where
  balance : Int
  monthlyIncome : Int
  monthlyExpense : Int
  totalIncome : Int
  totalExpense : Int
deriving DecidableEq, Repr

/-- The handler's `monthStart` string: first day of the current month. -/
def monthStart (now : CalDate) : CalDate := ⟨now.year, now.month, 1⟩

/-- SQL `SELECT SUM(amount)` over a filtered row set, with the handler's
`|| 0` turning the NULL of an empty set into 0. -/
def sqlSum (l : List Transaction) : Int := (l.map (fun t => t.amount)).sum

/-- GET /api/stats: four SUM queries filtered by user, type and (for the
monthly pair) `date >= monthStart`; balance is total income minus total
expense. -/
def get_stats (s : Store) (uid : Nat) (now : CalDate) : Stats :=
  let ms := monthStart now
  let totalIncome := sqlSum (s.transactions.filter
    (fun t => t.user_id == uid && t.type == TxType.income))
  let totalExpense := sqlSum (s.transactions.filter
    (fun t => t.user_id == uid && t.type == TxType.expense))
  let monthlyIncome := sqlSum (s.transactions.filter
    (fun t => t.user_id == uid && t.type == TxType.income && CalDate.le ms t.date))
  let monthlyExpense := sqlSum (s.transactions.filter
    (fun t => t.user_id == uid && t.type == TxType.expense && CalDate.le ms t.date))
  ⟨totalIncome - totalExpense, monthlyIncome, monthlyExpense,
    totalIncome, totalExpense⟩

/-- Sum of the amounts of the income transactions currently linked to
target `tid` via `target_id`. -/
def linkedIncomeSum (s : Store) (tid : Nat) : Int :=
  ((s.transactions.filter
      (fun t => t.type == TxType.income && t.target_id == some tid)).map
    (fun t => t.amount)).sum

/-- The spec's ledger invariant: every target's `saved_amount` equals the
sum of its currently linked income transactions. -/
def savedInvariant (s : Store) : Prop :=
  ∀ t ∈ s.targets, t.saved_amount = linkedIncomeSum s t.id

instance (s : Store) : Decidable (savedInvariant s) := by
  unfold savedInvariant; infer_instance

/-- First row of `targets` with the given id (ids are unique in practice). -/
def findTarget (s : Store) (tid : Nat) : Option Target :=
  s.targets.find? (fun t => t.id == tid)

/-- The `saved_amount` of target `tid`, when present. -/
def savedOf (s : Store) (tid : Nat) : Option Int :=
  (findTarget s tid).map (fun t => t.saved_amount)

instance {ε α : Type} [DecidableEq ε] [DecidableEq α] :
    DecidableEq (Except ε α) := fun a b =>
  match a, b with
  | .ok x, .ok y =>
    if h : x = y then .isTrue (by rw [h]) else .isFalse (by simp [h])
  | .error x, .error y =>
    if h : x = y then .isTrue (by rw [h]) else .isFalse (by simp [h])
  | .ok _, .error _ => .isFalse (by simp)
  | .error _, .ok _ => .isFalse (by simp)

/-! ## Shared list lemmas -/

/-- A conjunctive filter factors into two successive filters. -/
lemma filter_and_factor {α : Type} (p q : α → Bool) (l : List α) :
    l.filter (fun a => p a && q a) = (l.filter p).filter q := by
  induction l with
  | nil => rfl
  | cons a l ih =>
    by_cases hp : p a = true
    · by_cases hq : q a = true
      · simp [List.filter_cons, hp, hq, ih]
      · simp [List.filter_cons, hp, hq, ih]
    · simp [List.filter_cons, hp, ih]

/-! ## C1 / C2 scenarios: the DELETE handler drops the row without
reversing the linked target's `saved_amount` -/

/-- One savings target (id 1, user 1, `saved_amount` 0). -/
def c1_s0 : Store := (create_target Store.empty 1 "Liburan" 1000 none none).1

/-- An income transaction of 5 linked to target 1 by user 1. -/
def c1_req : TxRequest :=
  ⟨some 1, some "income", some "Gaji", some 5, none, some ⟨2025, 1, 10⟩, some 1⟩

/-- State after creating the linked income transaction (it gets id 1). -/
def c1_s1 : Store := (create_transaction c1_s0 c1_req).1

/-- State after deleting that transaction again. -/
def c1_s2 : Store := (delete_transaction c1_s1 1).1

/-- C1: the spec's invariant — after every create/delete operation a
target's `saved_amount` equals the sum of the currently present linked
income transactions — is violated by the code: it holds initially and
after the create, but after deleting the linked income transaction the
target still carries `saved_amount` 5 while the linked sum is 0, because
the DELETE handler never runs the reversal. -/
theorem c1_invariant_broken_by_delete :
    savedInvariant c1_s0 ∧ savedInvariant c1_s1 ∧ ¬ savedInvariant c1_s2 := by
  decide

/-- Same scenario, separate state chain for C2. -/
def c2_s0 : Store := (create_target Store.empty 1 "Motor" 2000 none none).1

/-- An income transaction of 5 linked to target 1 by user 1. -/
def c2_req : TxRequest :=
  ⟨some 1, some "income", some "Bonus", some 5, none, some ⟨2025, 2, 3⟩, some 1⟩

/-- State after creating the linked income transaction (id 1). -/
def c2_s1 : Store := (create_transaction c2_s0 c2_req).1

/-- State after deleting it again. -/
def c2_s2 : Store := (delete_transaction c2_s1 1).1

/-- C2: delete is NOT a left-inverse of create w.r.t. `saved_amount` in
the code: creating an income transaction of 5 linked to target 1 (prior
`saved_amount` 0) and then deleting it leaves `saved_amount` at 5, not at
its prior value, because the DELETE handler performs no decrement at
all. -/
theorem c2_delete_does_not_restore :
    savedOf c2_s0 1 = some 0 ∧
    (create_transaction c2_s0 c2_req).2 = Except.ok 1 ∧
    savedOf c2_s1 1 = some 5 ∧
    savedOf c2_s2 1 = some 5 ∧
    savedOf c2_s2 1 ≠ savedOf c2_s0 1 := by
  decide

/-! ## C3: the create handler updates the matching target with no
ownership check -/

/-- A target owned by user 2. -/
def c3_s0 : Store := (create_target Store.empty 2 "Rumah" 1000 none none).1

/-- User 1 files an income transaction of 5 against user 2's target. -/
def c3_req : TxRequest :=
  ⟨some 1, some "income", some "Gaji", some 5, none, some ⟨2025, 1, 10⟩, some 1⟩

/-- State after user 1's cross-owner create. -/
def c3_s1 : Store := (create_transaction c3_s0 c3_req).1

/-- C3 counterexample: target 1 is owned by user 2 while the request comes
from user 1, yet the create still raises the target's `saved_amount` from
0 to 5 — refuting the claim's "target owned by a different user ⇒ no
target's saved_amount changes" direction (the handler has no ownership
check). -/
theorem c3_cross_owner_increment :
    (findTarget c3_s0 1).map (fun t => t.user_id) = some 2 ∧
    c3_req.userId = some 1 ∧
    savedOf c3_s0 1 = some 0 ∧
    savedOf c3_s1 1 = some 5 := by
  decide

/-- C3 amended: on a create whose required fields are present and whose
type passes the CHECK constraint, the targets table afterwards is: every
row whose id equals the (truthy) `targetId` of an income request has
`saved_amount` incremented by the amount — regardless of who owns the
row — and in every other case (expense, or no truthy `targetId`) the
targets table is unchanged. -/
theorem c3_create_updates_matching_target (s : Store) (r : TxRequest)
    (uid : Nat) (tyStr : String) (ty : TxType) (cat : String) (amt : Int)
    (d : CalDate) (h1 : r.userId = some uid) (h2 : r.type = some tyStr)
    (h3 : r.category = some cat) (h4 : r.amount = some amt)
    (h5 : r.date = some d) (h6 : parseTxType tyStr = some ty) :
    ((create_transaction s r).1).targets =
      (if ty = TxType.income ∧ truthyId r.targetId = true then
        s.targets.map (fun t =>
          if some t.id = r.targetId then
            { t with saved_amount := t.saved_amount + amt }
          else t)
      else s.targets) := by
  unfold create_transaction
  rw [h1, h2, h3, h4, h5]
  dsimp only
  rw [h6]
  dsimp only
  split
  · rfl
  · rfl

/-- Witness for C3's amended theorem at the cross-owner scenario: the
lone target (id 1, owned by user 2) is bumped from 0 to 5. -/
theorem c3_create_updates_matching_target_witness :
    c3_s1.targets =
      [⟨1, 2, "Rumah", 1000, 0 + 5, none, none, "active", 1⟩] :=
  (c3_create_updates_matching_target c3_s0 c3_req 1 "income" TxType.income
      "Gaji" 5 ⟨2025, 1, 10⟩ rfl rfl rfl rfl rfl rfl).trans (by decide)

/-! ## C4: the DELETE handler never reports NotFound -/

/-- C4 counterexample: deleting id 1 from the empty store — no such
transaction exists — still answers `success: true` and not NotFound. -/
theorem c4_delete_missing_id_reports_success :
    delete_transaction Store.empty 1 = (Store.empty, true) := by
  decide

/-- C4 amended: `delete_transaction` always responds success (there is no
NotFound path), and when no transaction carries the requested id the
store is left unchanged. -/
theorem c4_delete_always_success (s : Store) (id : Nat) :
    (delete_transaction s id).2 = true ∧
      ((∀ tx ∈ s.transactions, tx.id ≠ id) → (delete_transaction s id).1 = s) := by
  refine ⟨rfl, fun h => ?_⟩
  unfold delete_transaction
  have he : s.transactions.filter (fun tx => !(tx.id == id)) = s.transactions := by
    apply List.filter_eq_self.mpr
    intro a ha
    simpa using h a ha
  simp [he]

/-- A store with one transaction (id 1) for the C4 witness. -/
def c4_s : Store :=
  ⟨[], [], [⟨1, 1, TxType.expense, "Makan", 7, none, ⟨2025, 1, 2⟩, none, 1⟩],
    1, 1, 2⟩

/-- Witness for C4's amended theorem: deleting the absent id 99 answers
success and leaves the store untouched. -/
theorem c4_delete_always_success_witness :
    (delete_transaction c4_s 99).2 = true ∧ (delete_transaction c4_s 99).1 = c4_s :=
  ⟨(c4_delete_always_success c4_s 99).1,
    (c4_delete_always_success c4_s 99).2 (by decide)⟩

/-! ## C5: no input validation beyond the SQL constraints -/

/-- A create request with every field present but a negative amount. -/
def c5_req : TxRequest :=
  ⟨some 1, some "expense", some "Makan", some (-5), none, some ⟨2025, 1, 2⟩, none⟩

/-- C5 counterexample: a create_transaction request whose amount is −5
(not greater than 0) is accepted — the handler answers ok and the row is
inserted — refuting "amount not greater than 0 fails with a
ValidationError and the store is left unchanged". -/
theorem c5_negative_amount_accepted :
    c5_req.amount = some (-5) ∧
    (create_transaction Store.empty c5_req).2 = Except.ok 1 ∧
    (create_transaction Store.empty c5_req).1.transactions ≠ [] := by
  decide

/-- C5 amended: a create_transaction request with a missing required
field, or a type outside {income, expense}, fails (as an SQLite
NOT NULL / CHECK constraint error, not a pre-store ValidationError) and
the store is left unchanged; the amount is never validated, so amount ≤ 0
is accepted and mutates the store. -/
theorem c5_bad_request_leaves_store_unchanged (s : Store) (r : TxRequest)
    (h : r.userId = none ∨ r.type = none ∨ r.category = none ∨
      r.amount = none ∨ r.date = none ∨
      ∃ str, r.type = some str ∧ parseTxType str = none) :
    (create_transaction s r).1 = s ∧
      (create_transaction s r).2 = Except.error ApiError.constraintViolation := by
  unfold create_transaction
  rcases hu : r.userId with _ | uid <;> rcases ht : r.type with _ | tyStr <;>
    rcases hc : r.category with _ | cat <;> rcases ha : r.amount with _ | amt <;>
      rcases hd : r.date with _ | d <;> dsimp only
  all_goals try exact ⟨rfl, rfl⟩
  rcases h with h | h | h | h | h | ⟨str, hstr, hp⟩
  · rw [hu] at h; cases h
  · rw [ht] at h; cases h
  · rw [hc] at h; cases h
  · rw [ha] at h; cases h
  · rw [hd] at h; cases h
  · rw [ht] at hstr
    injection hstr with he
    subst he
    rw [hp]
    exact ⟨rfl, rfl⟩

/-- A create request missing its required `category` field. -/
def c5_badReq : TxRequest :=
  ⟨some 1, some "income", none, some 5, none, some ⟨2025, 1, 2⟩, none⟩

/-- Witness for C5's amended theorem: the request missing `category`
errors out and the store is exactly the prior store. -/
theorem c5_bad_request_leaves_store_unchanged_witness :
    (create_transaction Store.empty c5_badReq).1 = Store.empty ∧
      (create_transaction Store.empty c5_badReq).2 =
        Except.error ApiError.constraintViolation :=
  c5_bad_request_leaves_store_unchanged Store.empty c5_badReq
    (Or.inr (Or.inr (Or.inl rfl)))

/-! ## C6: duplicate email registration -/

/-- C6: registering an email that some existing user already carries
fails with the duplicate-email error and returns the store unchanged —
the first user's record is untouched and no row is added. -/
theorem c6_duplicate_email_rejected (s : Store) (u : User) (n e p : String)
    (hu : u ∈ s.users) (he : u.email = e) :
    register s n e p = (s, Except.error ApiError.duplicateEmail) := by
  unfold register
  have hany : s.users.any (fun x => x.email == e) = true :=
    List.any_eq_true.mpr ⟨u, hu, by simp [he]⟩
  simp [hany]

/-- Store after a first successful registration. -/
def c6_s1 : Store := (register Store.empty "Dika" "dika@mail.com" "rahasia").1

/-- Witness for C6: a second registration with the same email against the
concrete one-user store fails with duplicate-email and changes nothing. -/
theorem c6_duplicate_email_rejected_witness :
    register c6_s1 "Budi" "dika@mail.com" "lain" =
      (c6_s1, Except.error ApiError.duplicateEmail) :=
  c6_duplicate_email_rejected c6_s1
    ⟨1, "Dika", "dika@mail.com", "rahasia", 1⟩ "Budi" "dika@mail.com" "lain"
    (by decide) rfl

/-! ## C7: balance identity -/

/-- C7: for every store, user and query time, the reported balance is the
sum of the user's income amounts minus the sum of the user's expense
amounts, and a user with no transactions gets balance 0. -/
theorem c7_balance_is_income_minus_expense (s : Store) (uid : Nat)
    (now : CalDate) :
    ((get_stats s uid now).balance =
        sqlSum (s.transactions.filter
            (fun t => t.user_id == uid && t.type == TxType.income)) -
          sqlSum (s.transactions.filter
            (fun t => t.user_id == uid && t.type == TxType.expense))) ∧
      (s.transactions.filter (fun t => t.user_id == uid) = [] →
        (get_stats s uid now).balance = 0) := by
  refine ⟨rfl, fun h => ?_⟩
  have hall := List.filter_eq_nil_iff.mp h
  have h1 : s.transactions.filter
      (fun t => t.user_id == uid && t.type == TxType.income) = [] := by
    refine List.filter_eq_nil_iff.mpr (fun t ht => ?_)
    have := hall t ht
    simp_all
  have h2 : s.transactions.filter
      (fun t => t.user_id == uid && t.type == TxType.expense) = [] := by
    refine List.filter_eq_nil_iff.mpr (fun t ht => ?_)
    have := hall t ht
    simp_all
  simp [get_stats, h1, h2, sqlSum]

/-- A two-user store: user 1 has an income of 9 and an expense of 4,
user 2 has an income of 100. -/
def c7_s : Store :=
  ⟨[], [],
    [⟨1, 1, TxType.income, "Gaji", 9, none, ⟨2025, 1, 2⟩, none, 1⟩,
      ⟨2, 1, TxType.expense, "Makan", 4, none, ⟨2025, 1, 3⟩, none, 2⟩,
      ⟨3, 2, TxType.income, "Gaji", 100, none, ⟨2025, 1, 4⟩, none, 3⟩],
    1, 1, 4⟩

/-- Witness for C7 at a concrete store: user 1's balance is 9 − 4 = 5 and
user 3 (no transactions) gets balance 0. -/
theorem c7_balance_is_income_minus_expense_witness :
    (get_stats c7_s 1 ⟨2025, 1, 31⟩).balance = 5 ∧
      (get_stats c7_s 3 ⟨2025, 1, 31⟩).balance = 0 :=
  ⟨((c7_balance_is_income_minus_expense c7_s 1 ⟨2025, 1, 31⟩).1).trans
      (by decide),
    (c7_balance_is_income_minus_expense c7_s 3 ⟨2025, 1, 31⟩).2 (by decide)⟩

/-! ## C8: the monthly window has no upper bound -/

/-- An income transaction of user 1 dated 2026-01-01. -/
def c8_tx : Transaction :=
  ⟨1, 1, TxType.income, "Gaji", 100, none, ⟨2026, 1, 1⟩, none, 1⟩

/-- A store holding only that future-dated transaction. -/
def c8_s : Store := ⟨[], [], [c8_tx], 1, 1, 2⟩

/-- C8 counterexample: at query time 2025-03-15 a transaction dated
2026-01-01 — strictly after the query time — is still counted in
monthly_income (100 instead of the 0 the claim requires), because the SQL
filter is only `date >= monthStart` with no upper bound. -/
theorem c8_future_transaction_counted :
    CalDate.le ⟨2025, 3, 15⟩ c8_tx.date = true ∧
      CalDate.le c8_tx.date ⟨2025, 3, 15⟩ = false ∧
      (get_stats c8_s 1 ⟨2025, 3, 15⟩).monthlyIncome = 100 := by
  decide

/-- C8 amended: monthly_income and monthly_expense sum exactly the user's
transactions of the matching type whose date is on or after the first day
of the current month, with no upper bound — and the stats depend on the
query time only through that month start (querying at the first of the
month gives identical results), so transactions dated after the query
time are included. -/
theorem c8_monthly_window_lower_bound_only (s : Store) (uid : Nat)
    (now : CalDate) :
    ((get_stats s uid now).monthlyIncome =
        sqlSum ((s.transactions.filter
            (fun t => t.user_id == uid && t.type == TxType.income)).filter
          (fun t => CalDate.le (monthStart now) t.date))) ∧
      ((get_stats s uid now).monthlyExpense =
        sqlSum ((s.transactions.filter
            (fun t => t.user_id == uid && t.type == TxType.expense)).filter
          (fun t => CalDate.le (monthStart now) t.date))) ∧
      get_stats s uid now = get_stats s uid (monthStart now) := by
  refine ⟨?_, ?_, rfl⟩
  · exact congrArg sqlSum
      (filter_and_factor
        (fun t => t.user_id == uid && t.type == TxType.income)
        (fun t => CalDate.le (monthStart now) t.date) s.transactions)
  · exact congrArg sqlSum
      (filter_and_factor
        (fun t => t.user_id == uid && t.type == TxType.expense)
        (fun t => CalDate.le (monthStart now) t.date) s.transactions)

/-! ## C9: reads are scoped to the queried user -/

/-- C9: two-run noninterference — two stores that agree on the rows whose
user_id is the queried user produce identical results for
list_transactions, list_targets and get_stats; other users' rows are
irrelevant to all three reads. -/
theorem c9_reads_scoped_to_user (s1 s2 : Store) (uid : Nat)
    (hT : s1.transactions.filter (fun t => t.user_id == uid) =
      s2.transactions.filter (fun t => t.user_id == uid))
    (hG : s1.targets.filter (fun t => t.user_id == uid) =
      s2.targets.filter (fun t => t.user_id == uid)) :
    list_transactions s1 uid = list_transactions s2 uid ∧
      list_targets s1 uid = list_targets s2 uid ∧
      ∀ now, get_stats s1 uid now = get_stats s2 uid now := by
  refine ⟨?_, ?_, fun now => ?_⟩
  · unfold list_transactions
    rw [hT]
  · unfold list_targets
    rw [hG]
  · simp only [get_stats]
    rw [filter_and_factor
          (fun t : Transaction => t.user_id == uid && t.type == TxType.income)
          (fun t => CalDate.le (monthStart now) t.date) s1.transactions,
        filter_and_factor
          (fun t : Transaction => t.user_id == uid && t.type == TxType.expense)
          (fun t => CalDate.le (monthStart now) t.date) s1.transactions,
        filter_and_factor
          (fun t : Transaction => t.user_id == uid && t.type == TxType.income)
          (fun t => CalDate.le (monthStart now) t.date) s2.transactions,
        filter_and_factor
          (fun t : Transaction => t.user_id == uid && t.type == TxType.expense)
          (fun t => CalDate.le (monthStart now) t.date) s2.transactions,
        filter_and_factor (fun t : Transaction => t.user_id == uid)
          (fun t => t.type == TxType.income) s1.transactions,
        filter_and_factor (fun t : Transaction => t.user_id == uid)
          (fun t => t.type == TxType.expense) s1.transactions,
        filter_and_factor (fun t : Transaction => t.user_id == uid)
          (fun t => t.type == TxType.income) s2.transactions,
        filter_and_factor (fun t : Transaction => t.user_id == uid)
          (fun t => t.type == TxType.expense) s2.transactions,
        hT]

/-- A store where user 1 has one income transaction and one target, and
user 2 has an expense transaction. -/
def c9_sA : Store :=
  ⟨[], [⟨1, 1, "Trip", 10, 0, none, none, "active", 1⟩],
    [⟨1, 1, TxType.income, "Gaji", 9, none, ⟨2025, 5, 2⟩, none, 1⟩,
      ⟨2, 2, TxType.expense, "Makan", 3, none, ⟨2025, 5, 3⟩, none, 2⟩],
    1, 2, 3⟩

/-- A store agreeing with `c9_sA` on user 1's rows but with user 2's
transaction removed and an extra target for user 2 added. -/
def c9_sB : Store :=
  ⟨[], [⟨1, 1, "Trip", 10, 0, none, none, "active", 1⟩,
      ⟨2, 2, "Mobil", 99, 0, none, none, "active", 2⟩],
    [⟨1, 1, TxType.income, "Gaji", 9, none, ⟨2025, 5, 2⟩, none, 1⟩],
    9, 9, 9⟩

/-- Witness for C9 at the concrete store pair: all three reads agree for
user 1 although user 2's rows differ between the stores. -/
theorem c9_reads_scoped_to_user_witness :
    list_transactions c9_sA 1 = list_transactions c9_sB 1 ∧
      list_targets c9_sA 1 = list_targets c9_sB 1 ∧
      get_stats c9_sA 1 ⟨2025, 5, 20⟩ = get_stats c9_sB 1 ⟨2025, 5, 20⟩ :=
  ⟨(c9_reads_scoped_to_user c9_sA c9_sB 1 (by decide) (by decide)).1,
    (c9_reads_scoped_to_user c9_sA c9_sB 1 (by decide) (by decide)).2.1,
    (c9_reads_scoped_to_user c9_sA c9_sB 1 (by decide) (by decide)).2.2
      ⟨2025, 5, 20⟩⟩

/-! ## C10: PATCH /api/targets/:id is a frame-respecting partial update -/

/-- The per-row effect of the PATCH handler on the matching target:
supplied fields overwrite, omitted fields keep their value, rows with a
different id are untouched. -/
def patchTarget (id : Nat) (ns : Option Int) (nst : Option String)
    (t : Target) : Target :=
  if t.id = id then
    { t with saved_amount := ns.getD t.saved_amount,
             status := nst.getD t.status }
  else t

/-- C10: update_target rewrites the targets table pointwise by
`patchTarget` and touches nothing else (users, transactions and the id
counters are all preserved); `patchTarget` leaves rows with a different
id untouched, never changes user_id, name, amount, deadline, description
or created_at, and on the matching row writes saved_amount and status
exactly when supplied, keeping the previous value otherwise. -/
theorem c10_update_target_frame (s : Store) (id : Nat) (ns : Option Int)
    (nst : Option String) :
    (update_target s id ns nst =
        { s with targets := s.targets.map (patchTarget id ns nst) }) ∧
      (∀ t : Target, t.id ≠ id → patchTarget id ns nst t = t) ∧
      (∀ t : Target, (patchTarget id ns nst t).user_id = t.user_id ∧
        (patchTarget id ns nst t).name = t.name ∧
        (patchTarget id ns nst t).amount = t.amount ∧
        (patchTarget id ns nst t).deadline = t.deadline ∧
        (patchTarget id ns nst t).description = t.description ∧
        (patchTarget id ns nst t).created_at = t.created_at) ∧
      (∀ t : Target, t.id = id →
        (patchTarget id ns nst t).saved_amount = ns.getD t.saved_amount ∧
        (patchTarget id ns nst t).status = nst.getD t.status) := by
  refine ⟨?_, fun t ht => ?_, fun t => ?_, fun t ht => ?_⟩
  · cases ns with
    | none =>
      cases nst with
      | none =>
        have hp : ∀ t : Target, patchTarget id none none t = t := fun t => by
          unfold patchTarget
          split <;> rfl
        show s = _
        rw [show patchTarget id none none = fun t => t from funext hp,
          List.map_id']
      | some w => rfl
    | some v =>
      cases nst with
      | none => rfl
      | some w =>
        show { s with targets :=
            ((s.targets.map (fun t : Target =>
              if t.id = id then { t with saved_amount := v } else t)).map
              (fun t : Target =>
                if t.id = id then { t with status := w } else t)) } = _
        rw [List.map_map]
        have hp : ((fun t : Target =>
            if t.id = id then { t with status := w } else t) ∘
              fun t => if t.id = id then { t with saved_amount := v } else t) =
            patchTarget id (some v) (some w) := by
          funext t
          by_cases h : t.id = id
          · simp [Function.comp, patchTarget, h]
          · simp [Function.comp, patchTarget, h]
        rw [hp]
  · unfold patchTarget
    rw [if_neg ht]
  · unfold patchTarget
    split
    · exact ⟨rfl, rfl, rfl, rfl, rfl, rfl⟩
    · exact ⟨rfl, rfl, rfl, rfl, rfl, rfl⟩
  · unfold patchTarget
    rw [if_pos ht]
    exact ⟨rfl, rfl⟩

/-- Witness for C10: on a concrete two-target store, patching target 1's
saved_amount to 50 leaves target 2 untouched and rewrites target 1 as the
per-row patch describes. -/
theorem c10_update_target_frame_witness :
    patchTarget 1 (some 50) none ⟨2, 7, "Mobil", 10, 3, none, none, "active", 2⟩ =
      ⟨2, 7, "Mobil", 10, 3, none, none, "active", 2⟩ ∧
    update_target ⟨[], [⟨1, 1, "Trip", 10, 3, none, none, "active", 1⟩], [], 1, 2, 1⟩
        1 (some 50) none =
      ⟨[], [⟨1, 1, "Trip", 10, 50, none, none, "active", 1⟩], [], 1, 2, 1⟩ :=
  ⟨(c10_update_target_frame
        ⟨[], [⟨1, 1, "Trip", 10, 3, none, none, "active", 1⟩], [], 1, 2, 1⟩
        1 (some 50) none).2.1
      ⟨2, 7, "Mobil", 10, 3, none, none, "active", 2⟩ (by decide),
    ((c10_update_target_frame
        ⟨[], [⟨1, 1, "Trip", 10, 3, none, none, "active", 1⟩], [], 1, 2, 1⟩
        1 (some 50) none).1).trans (by decide)⟩

end TabungDika
